import Mathlib

/-!
Shallow embedding of the attendance-report program (`src/app.py`) and proofs
about it.  The three core functions of the source are translated one-to-one:

* `process_attendance_sheet` — the heuristic sheet parser (app.py lines 25-148);
* `calculate_attendance_summary` — the per-record date-range aggregator
  (app.py lines 150-222);
* `calculate_combined_summary` — the cross-month combiner (app.py lines 224-246).

Cells of a sheet are modelled as a tagged variant (empty / text / native date);
a grid is a list of rows of cells, and out-of-range reads yield `Cell.empty`,
which models the NaN padding pandas applies to a rectangular DataFrame read
with `header=None`.  Dates are calendar dates with four-digit years, for which
the `strftime("%Y-%m-%d")` / `pd.to_datetime` round trip performed by the
source is the identity, so records store `Date` keys directly.  The library
call `pd.to_datetime` on header text is modelled by `pdToDatetime`, with three
outcomes exactly as in pandas: a real date (via `parseDate`, an ISO
`YYYY-MM-DD` parser with calendar validation), the sentinel `NaT` for the
NaT-recognized strings (empty and the `nan`/`NaT` case variants) — returned
without raising, so the source keeps such a column — and an exception for
anything else, which the source catches by skipping the column.  A kept `NaT`
column is a live crash: `NaT.strftime` at app.py line 143 raises an uncaught
`ValueError` as soon as a row has a usable status in that column, so the
record-building stage returns a `PyResult` that is either the record list or
the raised error.
-/

/-- Calendar date, as serialized by the source into ISO `YYYY-MM-DD` keys. -/
structure Date where
  year : Nat
  month : Nat
  day : Nat
deriving DecidableEq, Repr

/-- Numeric key giving the calendar order of dates (months and days are < 100). -/
def Date.toKey (d : Date) : Nat := d.year * 10000 + d.month * 100 + d.day

/-- Date comparison, modelling Python `date <= date`. -/
def dateLE (a b : Date) : Bool := decide (a.toKey ≤ b.toKey)

/-- Leap-year rule used by the calendar validation of `parseDate`. -/
def isLeap (y : Nat) : Bool := (y % 4 = 0 && y % 100 ≠ 0) || y % 400 = 0

/-- Number of days of month `m` in year `y`. -/
def daysInMonth (y m : Nat) : Nat :=
  if m = 2 then (if isLeap y then 29 else 28)
  else if m = 4 ∨ m = 6 ∨ m = 9 ∨ m = 11 then 30
  else 31

/-- Value of a non-empty all-digit character list, else `none`. -/
def digitsVal (cs : List Char) : Option Nat :=
  if cs.isEmpty then none
  else if cs.all (fun c => c.isDigit) then
    some (cs.foldl (fun n c => n * 10 + (c.toNat - 48)) 0)
  else none

/-- Split a character list on a separator character. -/
def splitOnChar (sep : Char) : List Char → List (List Char)
  | [] => [[]]
  | c :: rest =>
    let r := splitOnChar sep rest
    if c = sep then [] :: r
    else
      match r with
      | [] => [[c]]
      | h :: t => (c :: h) :: t

/-- Parse of an ISO `YYYY-MM-DD` date string with calendar validation — the
date-yielding branch of `pdToDatetime` below; strings that are neither a valid
date nor a NaT-string make `pd.to_datetime` raise. -/
def parseDate (s : String) : Option Date :=
  match splitOnChar '-' s.data with
  | [ys, ms, ds] =>
    match digitsVal ys, digitsVal ms, digitsVal ds with
    | some y, some m, some d =>
      if 1 ≤ y ∧ y ≤ 9999 ∧ 1 ≤ m ∧ m ≤ 12 ∧ 1 ≤ d ∧ d ≤ daysInMonth y m then
        some ⟨y, m, d⟩
      else none
    | _, _, _ => none
  | _ => none

/-- Value a kept header cell resolves to: a real calendar date, or the pandas
sentinel `NaT`, which `pd.to_datetime` returns *without raising* for
NaT-recognized strings, so the source keeps the column (and later crashes on
`NaT.strftime` at app.py line 143). -/
inductive HeaderDate where
  | real : Date → HeaderDate
  | nat : HeaderDate
deriving DecidableEq, Repr

/-- Strings `pd.to_datetime` maps to `NaT` instead of raising: the empty
string (a whitespace-only cell strips to it) and the `nan`/`NaT` case
variants (pandas `nat_strings`). -/
def natStrings : List String := ["", "nan", "NaN", "NAN", "NaT", "nat", "NAT"]

/-- Model of `pd.to_datetime` on one header token (app.py lines 71/73):
NaT-strings yield `NaT` without raising; a valid ISO date string yields the
date; anything else raises, which the source catches at line 78 and turns
into a skipped column — rendered here as `none`. -/
def pdToDatetime (s : String) : Option HeaderDate :=
  if s ∈ natStrings then some HeaderDate.nat
  else
    match parseDate s with
    | some d => some (HeaderDate.real d)
    | none => none

/-- Leading/trailing-whitespace removal on characters; models Python `str.strip()`. -/
def trimChars (cs : List Char) : List Char :=
  ((cs.dropWhile Char.isWhitespace).reverse.dropWhile Char.isWhitespace).reverse

/-- String trim, modelling Python `str.strip()`. -/
def strTrim (s : String) : String := String.mk (trimChars s.data)

/-- Substring test on character lists (needle starts here?). -/
def headMatch : List Char → List Char → Bool
  | [], _ => true
  | _ :: _, [] => false
  | a :: as, b :: bs => a = b && headMatch as bs

/-- Substring containment on character lists. -/
def containsSubL (needle : List Char) : List Char → Bool
  | [] => headMatch needle []
  | c :: rest => headMatch needle (c :: rest) || containsSubL needle rest

/-- Substring containment, modelling Python `needle in hay`. -/
def containsSub (needle hay : String) : Bool := containsSubL needle.data hay.data

/-- Substring of `s` before the first space, after no further trimming; models
Python `cell_str.split()[0]` applied to an already stripped string. -/
def firstToken (s : String) : String :=
  String.mk (s.data.takeWhile (fun c => c ≠ ' '))

/-- Digit character of `n % 10`. -/
def natDigitChar (n : Nat) : Char := Char.ofNat (48 + n % 10)

/-- Two-digit zero-padded rendering, modelling `strftime` `%m` / `%d`. -/
def pad2 (n : Nat) : List Char := [natDigitChar (n / 10), natDigitChar n]

/-- Four-digit rendering, modelling `strftime` `%Y` on four-digit years. -/
def pad4 (n : Nat) : List Char :=
  [natDigitChar (n / 1000), natDigitChar (n / 100), natDigitChar (n / 10), natDigitChar n]

/-- ISO `YYYY-MM-DD` rendering of a date. -/
def dateISO (d : Date) : String :=
  String.mk (pad4 d.year ++ '-' :: (pad2 d.month ++ '-' :: pad2 d.day))

/-- One sheet cell: empty (NaN), text, or a native date value. -/
inductive Cell where
  | empty : Cell
  | text : String → Cell
  | date : Date → Cell
deriving DecidableEq, Repr

/-- Python `str(cell)`: text is itself, NaN prints as `nan`, a native datetime
prints as `YYYY-MM-DD 00:00:00`. -/
def cellToStr : Cell → String
  | Cell.empty => "nan"
  | Cell.text s => s
  | Cell.date d => dateISO d ++ " 00:00:00"

/-- Python `pd.isna(cell)`. -/
def isNa : Cell → Bool
  | Cell.empty => true
  | _ => false

/-- One sheet: a grid of cells, row-major. -/
def Grid := List (List Cell)

/-- Cell at `(r, c)`; out-of-range reads are NaN, modelling the rectangular
NaN padding of a pandas DataFrame (and the `len(row)` guards of the source). -/
def cellAt (g : Grid) (r c : Nat) : Cell := (g.getD r []).getD c Cell.empty

/-- Row `r` of the grid (empty when out of range). -/
def rowAt (g : Grid) (r : Nat) : List Cell := g.getD r []

/-- Cell "looks like a date": a native date value, or text containing an
allow-listed `YYYY-` token with total length above 8 (app.py lines 35-41). -/
def isDateLike (c : Cell) : Bool :=
  match c with
  | Cell.empty => false
  | Cell.date _ => true
  | Cell.text s =>
    (containsSub "2025-" s && decide (s.length > 8)) ||
    (containsSub "2024-" s && decide (s.length > 8)) ||
    (containsSub "2023-" s && decide (s.length > 8))

/-- Number of date-like cells of a row.  The source counts with an early break
once the count reaches 3 (app.py lines 33-45); selecting on `3 ≤ count` is
equivalent. -/
def dateCountRow (row : List Cell) : Nat := row.countP isDateLike

/-- Header-row detection: the first row among the first `min 5 (length)` rows
whose date-like cell count reaches 3 (app.py lines 29-47). -/
def findHeaderRow (g : Grid) : Option Nat :=
  (List.range (min 5 g.length)).find? (fun i => decide (3 ≤ dateCountRow (rowAt g i)))

/-- Number of columns of the grid, modelling `len(sheet_df.columns)`. -/
def gridWidth (g : Grid) : Nat := (g.map List.length).foldr max 0

/-- Resolve one header-row cell: native dates directly, text by stripping,
taking the part before the first space, and handing the token to
`pd.to_datetime` (app.py lines 60-79); NaN cells and the exactly-empty string
are skipped before parsing (line 61), a raising token is skipped by the
`except` of line 78, and a NaT token is *kept* as `HeaderDate.nat`. -/
def parseHeaderCell (c : Cell) : Option HeaderDate :=
  match c with
  | Cell.empty => none
  | Cell.date d => some (HeaderDate.real d)
  | Cell.text s =>
    if s = "" then none
    else pdToDatetime (firstToken (strTrim s))

/-- Date-column extraction: every column index from 2 on whose header-row cell
is kept by `parseHeaderCell`, paired with the resolved value — a real date or
the `NaT` sentinel (app.py lines 53-79). -/
def extractDateCols (g : Grid) (hdr : Nat) : List (Nat × HeaderDate) :=
  (List.range (gridWidth g)).filterMap (fun c =>
    if c < 2 then none
    else (parseHeaderCell (cellAt g hdr c)).map (fun d => (c, d)))

/-- Marker test of app.py line 92/99: the cell's string contains `Emp Name`.
(The Python truthiness guard on the raw cell only excludes values whose string
could not contain the marker, so it is absorbed here.) -/
def hasEmpNameMarker (c : Cell) : Bool := containsSub "Emp Name" (cellToStr c)

/-- First data row: the row after the header, plus one more when the sheet is
named `October` or `November` and the next row's column 2 contains the
`Emp Name` marker (app.py lines 84-100).  The skip is sheet-name-gated in the
source. -/
def empDataStart (g : Grid) (sheetName : String) (hdr : Nat) : Nat :=
  let start := hdr + 1
  if sheetName = "October" ∨ sheetName = "November" then
    if decide (start < g.length) && hasEmpNameMarker (cellAt g start 2) then start + 1
    else start
  else start

/-- Normalized per-employee-per-sheet record; `entries` is the insertion-ordered
date → status mapping the source keeps as extra dict keys. -/
structure AttendanceRecord where
  process : String
  empId : String
  empName : String
  sheet : String
  entries : List (Date × String)
deriving DecidableEq, Repr

/-- Status cell is usable: non-NaN and its stripped string is neither empty
nor `nan` (app.py lines 115 and 141). -/
def statusOk (c : Cell) : Bool :=
  !isNa c && !(strTrim (cellToStr c) = "" ∨ strTrim (cellToStr c) = "nan")

/-- Insertion into the record's date → status mapping with Python-dict
semantics: an existing key keeps its position and gets the new value, a new
key is appended. -/
def dictInsert (l : List (Date × String)) (k : Date) (v : String) : List (Date × String) :=
  match l with
  | [] => [(k, v)]
  | p :: t => if p.1 = k then (k, v) :: t else p :: dictInsert t k v

/-- Outcome of a Python computation that either returns a value or lets an
exception escape (the uncaught `ValueError` of `NaT.strftime` at app.py line
143 is the one live raise of the parser). -/
inductive PyResult (α : Type) where
  | ok : α → PyResult α
  | raised : String → PyResult α
deriving DecidableEq, Repr

/-- Build the date → status entries of one employee row: for each kept column
in column order, when the status cell is usable, serialize the column's
header value with `strftime` — which raises on a `NaT` column — and store the
stripped status under the date, overwriting any earlier column with the same
date (app.py lines 138-144). -/
def buildEntries (cell : Nat → Cell) :
    List (Nat × HeaderDate) → List (Date × String) → PyResult (List (Date × String))
  | [], acc => PyResult.ok acc
  | cd :: rest, acc =>
    if statusOk (cell cd.1) then
      match cd.2 with
      | HeaderDate.real d =>
        buildEntries cell rest (dictInsert acc d (strTrim (cellToStr (cell cd.1))))
      | HeaderDate.nat => PyResult.raised "NaTType does not support strftime"
    else buildEntries cell rest acc

/-- One employee row to a record: skip rows whose column-2 name is missing or a
placeholder, and rows with no usable status in any kept column; otherwise copy
the identity columns and build the entries, propagating the `NaT.strftime`
raise (app.py lines 105-146). -/
def rowToRecord (g : Grid) (sheetName : String) (dateCols : List (Nat × HeaderDate))
    (idx : Nat) : PyResult (Option AttendanceRecord) :=
  let nameCell := cellAt g idx 2
  if isNa nameCell then PyResult.ok none
  else
    let name := strTrim (cellToStr nameCell)
    if name = "" ∨ name = "Emp Name" ∨ name = "nan" ∨ name = "None" then PyResult.ok none
    else if !(dateCols.any (fun cd => statusOk (cellAt g idx cd.1))) then PyResult.ok none
    else
      match buildEntries (fun c => cellAt g idx c) dateCols [] with
      | PyResult.raised e => PyResult.raised e
      | PyResult.ok entries => PyResult.ok (some
          { process := if isNa (cellAt g idx 0) then "Unknown" else cellToStr (cellAt g idx 0)
            empId := if isNa (cellAt g idx 1) then "" else cellToStr (cellAt g idx 1)
            empName := name
            sheet := sheetName
            entries := entries })

/-- Record extraction over the given row indices, in order; a raising row
aborts the whole sheet, exactly as the uncaught exception does (app.py lines
103-146). -/
def extractRecords (g : Grid) (sheetName : String) (dateCols : List (Nat × HeaderDate)) :
    List Nat → PyResult (List AttendanceRecord)
  | [] => PyResult.ok []
  | i :: rest =>
    match rowToRecord g sheetName dateCols i with
    | PyResult.raised e => PyResult.raised e
    | PyResult.ok none => extractRecords g sheetName dateCols rest
    | PyResult.ok (some r) =>
      match extractRecords g sheetName dateCols rest with
      | PyResult.raised e => PyResult.raised e
      | PyResult.ok l => PyResult.ok (r :: l)

/-- The sheet parser (app.py lines 25-148): find the header row, extract the
kept columns, and extract the records; an empty list is returned when either
the header row or the kept columns are missing, and a `NaT` column together
with a usable status in some employee row makes the parse raise. -/
def process_attendance_sheet (g : Grid) (sheetName : String) :
    PyResult (List AttendanceRecord) :=
  match findHeaderRow g with
  | none => PyResult.ok []
  | some hdr =>
    let dateCols := extractDateCols g hdr
    if dateCols.isEmpty then PyResult.ok []
    else
      extractRecords g sheetName dateCols
        (List.range' (empDataStart g sheetName hdr) (g.length - empDataStart g sheetName hdr))

/-- Per-employee summary row for one sheet and one date range (the dict built
at app.py lines 170-186).  `totalWorkingDays` is rational because a Halfday
contributes 0.5. -/
structure SummaryRow where
  process : String
  empId : String
  empName : String
  sheet : String
  present : Nat
  plannedLeave : Nat
  unplannedLeave : Nat
  sickLeave : Nat
  casualLeave : Nat
  compOff : Nat
  halfDay : Nat
  absent : Nat
  offDays : Nat
  resigned : Nat
  totalWorkingDays : ℚ
deriving DecidableEq, Repr

/-- Fresh summary row of a record: identity fields copied, every count zero
(app.py lines 170-186). -/
def initSummary (r : AttendanceRecord) : SummaryRow :=
  { process := r.process, empId := r.empId, empName := r.empName, sheet := r.sheet
    present := 0, plannedLeave := 0, unplannedLeave := 0, sickLeave := 0
    casualLeave := 0, compOff := 0, halfDay := 0, absent := 0, offDays := 0
    resigned := 0, totalWorkingDays := 0 }

/-- Effect of one in-range status code on the running summary: the flattened
if/elif classification chain of app.py lines 199-215 over the code tables of
lines 154-165 (present `['W']`, the leave dict, absent `['Absconded','NCNS']`,
resigned `['Resigned','Resgined']`, off `['OFF']`); an unrecognized code
changes nothing. -/
def applyStatus (a : SummaryRow) (status : String) : SummaryRow :=
  if status = "W" then
    { a with present := a.present + 1, totalWorkingDays := a.totalWorkingDays + 1 }
  else if status = "PL" then
    { a with plannedLeave := a.plannedLeave + 1, totalWorkingDays := a.totalWorkingDays + 1 }
  else if status = "UPL" then
    { a with unplannedLeave := a.unplannedLeave + 1, totalWorkingDays := a.totalWorkingDays + 1 }
  else if status = "SL" then
    { a with sickLeave := a.sickLeave + 1, totalWorkingDays := a.totalWorkingDays + 1 }
  else if status = "CL" then
    { a with casualLeave := a.casualLeave + 1, totalWorkingDays := a.totalWorkingDays + 1 }
  else if status = "Compoff" then
    { a with compOff := a.compOff + 1, totalWorkingDays := a.totalWorkingDays + 1 }
  else if status = "Halfday" then
    { a with halfDay := a.halfDay + 1, totalWorkingDays := a.totalWorkingDays + 1/2 }
  else if status = "Absconded" ∨ status = "NCNS" then
    { a with absent := a.absent + 1, totalWorkingDays := a.totalWorkingDays + 1 }
  else if status = "Resigned" ∨ status = "Resgined" then
    { a with resigned := a.resigned + 1 }
  else if status = "OFF" then
    { a with offDays := a.offDays + 1 }
  else a

/-- Date range test of app.py line 196: `start_date <= col_date <= end_date`,
both endpoints included. -/
def inRangeB (s e d : Date) : Bool := dateLE s d && dateLE d e

/-- Summary of one record over a date range: fold over the stored
(date, status) entries, applying the stripped status of every in-range entry
(app.py lines 188-218; the stored ISO keys re-parse to their own dates, so the
`pd.to_datetime(col)` step is the identity here). -/
def recordSummary (s e : Date) (r : AttendanceRecord) : SummaryRow :=
  r.entries.foldl
    (fun a p => if inRangeB s e p.1 then applyStatus a (strTrim p.2) else a)
    (initSummary r)

/-- The summary aggregator (app.py lines 150-222): the loop appends one summary
row per record to an initially empty list. -/
def calculate_attendance_summary (l : List AttendanceRecord) (s e : Date) :
    List SummaryRow :=
  l.foldl (fun acc r => acc ++ [recordSummary s e r]) []

/-- Grouping key of the combiner: the (process, employee id, employee name)
tuple, under the lexicographic tuple order Python/pandas use to sort group
keys. -/
abbrev SKey := Lex (String × Lex (String × String))

/-- Key of one summary row (app.py line 228). -/
def summaryKey (r : SummaryRow) : SKey := toLex (r.process, toLex (r.empId, r.empName))

/-- Combined per-employee row across sheets (app.py lines 224-246). -/
structure CombinedSummaryRow where
  process : String
  empId : String
  empName : String
  present : Nat
  plannedLeave : Nat
  unplannedLeave : Nat
  sickLeave : Nat
  casualLeave : Nat
  compOff : Nat
  halfDay : Nat
  absent : Nat
  offDays : Nat
  resigned : Nat
  totalWorkingDays : ℚ
  contributingSheets : String
deriving DecidableEq, Repr

/-- Join a list of strings with a separator, modelling Python `sep.join`. -/
def joinSep (sep : String) : List String → String
  | [] => ""
  | [x] => x
  | x :: y :: t => x ++ sep ++ joinSep sep (y :: t)

/-- Combined row of one group key: every numeric field summed over the rows of
the group, and the group's distinct sheet names sorted alphabetically and
joined with a comma (app.py lines 228-244; `sorted(x.unique())` is the sorted
deduplication). -/
def combinedRowFor (l : List SummaryRow) (k : SKey) : CombinedSummaryRow :=
  let g := l.filter (fun r => summaryKey r = k)
  { process := (ofLex k).1
    empId := (ofLex (ofLex k).2).1
    empName := (ofLex (ofLex k).2).2
    present := (g.map SummaryRow.present).sum
    plannedLeave := (g.map SummaryRow.plannedLeave).sum
    unplannedLeave := (g.map SummaryRow.unplannedLeave).sum
    sickLeave := (g.map SummaryRow.sickLeave).sum
    casualLeave := (g.map SummaryRow.casualLeave).sum
    compOff := (g.map SummaryRow.compOff).sum
    halfDay := (g.map SummaryRow.halfDay).sum
    absent := (g.map SummaryRow.absent).sum
    offDays := (g.map SummaryRow.offDays).sum
    resigned := (g.map SummaryRow.resigned).sum
    totalWorkingDays := (g.map SummaryRow.totalWorkingDays).sum
    contributingSheets :=
      joinSep ", " (List.insertionSort (· ≤ ·) (g.map SummaryRow.sheet).dedup) }

/-- The cross-month combiner (app.py lines 224-246): one output row per
distinct grouping key, keys in ascending order (pandas `groupby` sorts group
keys), each row holding the group's summed fields and its contributing-sheet
list. -/
def calculate_combined_summary (l : List SummaryRow) : List CombinedSummaryRow :=
  (List.insertionSort (· ≤ ·) ((l.map summaryKey).dedup)).map (combinedRowFor l)

/-- Status codes classified by the tables of app.py lines 154-165; any other
code falls through every branch of the classification chain. -/
def recognizedCodes : List String :=
  ["W", "PL", "UPL", "SL", "CL", "Compoff", "Halfday", "Absconded", "NCNS",
   "Resigned", "Resgined", "OFF"]

/-- Status stored under date `d` of a record's entries (first matching key;
keys are unique under `dictInsert`). -/
def lookupDate (l : List (Date × String)) (d : Date) : Option String :=
  (l.find? (fun p => decide (p.1 = d))).map (fun p => p.2)

/-- Concrete grid used to evaluate the sheet-name-gated marker skip: the row
after the header carries the `Emp Name` marker in column 2 (as a substring,
so the placeholder filter of app.py line 109 does not catch it) together with
a status value. -/
def c1Grid : Grid :=
  [[Cell.text "", Cell.text "", Cell.text "Name", Cell.text "2025-09-01",
    Cell.text "2025-09-02", Cell.text "2025-09-03"],
   [Cell.text "X", Cell.text "Y", Cell.text "Emp Name:", Cell.text "W",
    Cell.text "", Cell.text ""]]

/-- Concrete grid whose row 0 has exactly two date-like cells (one below the
threshold) and whose row 1 has exactly three. -/
def c3Grid : Grid :=
  [[Cell.text "2025-01-01x", Cell.text "2025-01-02x", Cell.text "no"],
   [Cell.text "h", Cell.text "h", Cell.text "2025-01-01", Cell.text "2025-01-02",
    Cell.text "2025-01-03"]]

/-- Concrete grid with no date-like row at all. -/
def c8Grid : Grid := [[Cell.text "a", Cell.text "b"], [Cell.text "c"]]

/-- Concrete grid on which the source parser raises: the header row is found
(three date-like cells), column 6's header text `nan` passes the line-61
guards and `pd.to_datetime` turns it into `NaT` without raising, so the
column is kept; the employee row has a usable status in that column, and
`NaT.strftime` at app.py line 143 raises an uncaught `ValueError`. -/
def natCrashGrid : Grid :=
  [[Cell.text "", Cell.text "", Cell.text "x", Cell.text "2025-09-01",
    Cell.text "2025-09-02", Cell.text "2025-09-03", Cell.text "nan"],
   [Cell.text "Ops", Cell.text "E1", Cell.text "Alice", Cell.text "W",
    Cell.text "W", Cell.text "W", Cell.text "W"]]

/-- Concrete record used by witnesses. -/
def recA : AttendanceRecord :=
  { process := "Ops", empId := "E1", empName := "Alice", sheet := "September"
    entries := [(⟨2025, 9, 1⟩, "W"), (⟨2025, 9, 2⟩, "Halfday")] }

/-- Second concrete record used by witnesses. -/
def recB : AttendanceRecord :=
  { process := "Ops", empId := "E2", empName := "Bob", sheet := "September"
    entries := [(⟨2025, 9, 1⟩, "OFF")] }

/-- Concrete summary row used by the combiner witness. -/
def rowA : SummaryRow :=
  { process := "Ops", empId := "E1", empName := "Alice", sheet := "September"
    present := 1, plannedLeave := 0, unplannedLeave := 0, sickLeave := 0
    casualLeave := 0, compOff := 0, halfDay := 0, absent := 0, offDays := 0
    resigned := 0, totalWorkingDays := 1 }

/-- Second concrete summary row (same employee, another sheet). -/
def rowB : SummaryRow :=
  { process := "Ops", empId := "E1", empName := "Alice", sheet := "October"
    present := 2, plannedLeave := 0, unplannedLeave := 0, sickLeave := 0
    casualLeave := 0, compOff := 0, halfDay := 0, absent := 0, offDays := 0
    resigned := 0, totalWorkingDays := 2 }

lemma foldl_append_singleton (f : AttendanceRecord → SummaryRow) :
    ∀ (l : List AttendanceRecord) (acc : List SummaryRow),
      l.foldl (fun a r => a ++ [f r]) acc = acc ++ l.map f := by
  intro l
  induction l with
  | nil => intro acc; simp
  | cons r t ih => intro acc; simp [ih]

lemma summary_eq_map (l : List AttendanceRecord) (s e : Date) :
    calculate_attendance_summary l s e = l.map (recordSummary s e) := by
  unfold calculate_attendance_summary
  simpa using foldl_append_singleton (recordSummary s e) l []

lemma inRangeB_false_of_reversed (s e d : Date) (h : dateLE s e = false) :
    inRangeB s e d = false := by
  simp only [inRangeB, dateLE, decide_eq_false_iff_not] at h ⊢
  simp only [Bool.and_eq_false_iff, decide_eq_false_iff_not]
  omega

lemma recordSummary_of_empty_range (s e : Date) (r : AttendanceRecord)
    (h : dateLE s e = false) : recordSummary s e r = initSummary r := by
  unfold recordSummary
  have aux : ∀ (l : List (Date × String)) (a : SummaryRow),
      l.foldl (fun a p => if inRangeB s e p.1 then applyStatus a (strTrim p.2) else a) a
        = a := by
    intro l
    induction l with
    | nil => intro a; rfl
    | cons p t ih => intro a; simp [inRangeB_false_of_reversed s e p.1 h, ih]
  exact aux r.entries (initSummary r)

lemma applyStatus_unrecognized (st : String) (h : st ∉ recognizedCodes)
    (a : SummaryRow) : applyStatus a st = a := by
  simp only [recognizedCodes, List.mem_cons, List.not_mem_nil, or_false] at h
  push_neg at h
  obtain ⟨h1, h2, h3, h4, h5, h6, h7, h8, h9, h10, h11, h12⟩ := h
  simp [applyStatus, h1, h2, h3, h4, h5, h6, h7, h8, h9, h10, h11, h12]

lemma find?_range'_spec (p : Nat → Bool) :
    ∀ (n s i : Nat), (List.range' s n).find? p = some i →
      p i = true ∧ s ≤ i ∧ i < s + n ∧ ∀ j, s ≤ j → j < i → p j = false := by
  intro n
  induction n with
  | zero =>
    intro s i h
    simp [List.range'] at h
  | succ m ih =>
    intro s i h
    rw [show List.range' s (m + 1) = s :: List.range' (s + 1) m from rfl] at h
    by_cases hp : p s = true
    · rw [List.find?_cons_of_pos _ hp] at h
      obtain rfl : s = i := by injection h
      exact ⟨hp, Nat.le_refl s, by omega, fun j hsj hji => absurd hsj (by omega)⟩
    · rw [List.find?_cons_of_neg _ (by simpa using hp)] at h
      obtain ⟨hpi, hsi, hlt, hall⟩ := ih (s + 1) i h
      refine ⟨hpi, by omega, by omega, ?_⟩
      intro j hsj hji
      by_cases hjs : j = s
      · subst hjs
        simpa using hp
      · exact hall j (by omega) hji

lemma lookupDate_dictInsert_self (l : List (Date × String)) (k : Date) (v : String) :
    lookupDate (dictInsert l k v) k = some v := by
  induction l with
  | nil => simp [dictInsert, lookupDate]
  | cons p t ih =>
    by_cases h : p.1 = k
    · simp [dictInsert, h, lookupDate]
    · simp only [dictInsert, if_neg h]
      simp only [lookupDate, List.find?] at ih ⊢
      simp [h, ih]

lemma lookupDate_dictInsert_ne (l : List (Date × String)) (k : Date) (v : String)
    (d : Date) (h : k ≠ d) : lookupDate (dictInsert l k v) d = lookupDate l d := by
  induction l with
  | nil => simp [dictInsert, lookupDate, h]
  | cons p t ih =>
    by_cases hp : p.1 = k
    · subst hp
      simp [dictInsert, lookupDate, List.find?, h]
    · simp only [dictInsert, if_neg hp]
      simp only [lookupDate, List.find?] at ih ⊢
      by_cases hd : p.1 = d
      · simp [hd]
      · simp [hd, ih]

lemma insertionSort_eq_of_perm {α : Type} [LinearOrder α] {l1 l2 : List α}
    (h : l1.Perm l2) :
    List.insertionSort (· ≤ ·) l1 = List.insertionSort (· ≤ ·) l2 := by
  exact List.eq_of_perm_of_sorted
    ((List.perm_insertionSort _ _).trans (h.trans (List.perm_insertionSort _ _).symm))
    (List.sorted_insertionSort _ _) (List.sorted_insertionSort _ _)

lemma combinedRowFor_eq_of_perm {l1 l2 : List SummaryRow} (h : l1.Perm l2) (k : SKey) :
    combinedRowFor l1 k = combinedRowFor l2 k := by
  have hg : (l1.filter (fun r => summaryKey r = k)).Perm
      (l2.filter (fun r => summaryKey r = k)) := h.filter _
  have hsheets :
      List.insertionSort (· ≤ ·)
          ((l1.filter (fun r => summaryKey r = k)).map SummaryRow.sheet).dedup
        = List.insertionSort (· ≤ ·)
            ((l2.filter (fun r => summaryKey r = k)).map SummaryRow.sheet).dedup :=
    insertionSort_eq_of_perm ((hg.map SummaryRow.sheet).dedup)
  simp only [combinedRowFor]
  rw [hsheets, (hg.map SummaryRow.present).sum_eq, (hg.map SummaryRow.plannedLeave).sum_eq,
    (hg.map SummaryRow.unplannedLeave).sum_eq, (hg.map SummaryRow.sickLeave).sum_eq,
    (hg.map SummaryRow.casualLeave).sum_eq, (hg.map SummaryRow.compOff).sum_eq,
    (hg.map SummaryRow.halfDay).sum_eq, (hg.map SummaryRow.absent).sum_eq,
    (hg.map SummaryRow.offDays).sum_eq, (hg.map SummaryRow.resigned).sum_eq,
    (hg.map SummaryRow.totalWorkingDays).sum_eq]

/-- Claim C1: the claim states the extra-row skip after the header fires for
every sheet name whenever the row after the header carries the `Emp Name`
marker.  The code gates the skip on the sheet name: on `c1Grid`, whose
post-header row carries the marker (plus a status), the sheet named `October`
skips the row and yields no record, while the identically shaped sheet named
`September` does not skip it and emits the marker row as an employee record.
The parse result depends on the sheet name, contradicting the claim. -/
theorem claim1_marker_skip_is_sheet_gated :
    process_attendance_sheet c1Grid "September"
      = PyResult.ok
          [{ process := "X", empId := "Y", empName := "Emp Name:", sheet := "September",
             entries := [(⟨2025, 9, 1⟩, "W")] }]
    ∧ process_attendance_sheet c1Grid "October" = PyResult.ok [] := by decide

/-- Claim C2: one in-range stored entry passes its stripped status through
`applyStatus`, and for each recognized code `applyStatus` increments exactly
the claimed category count and Total Working Days weight: `Halfday` adds 1 to
the Half Day count and 0.5 to the total; `Resigned`/`Resgined` add 1 to the
Resigned count and 0 to the total; `OFF` adds 1 to the Off count and 0 to the
total; and `W`, `PL`, `UPL`, `SL`, `CL`, `Compoff`, `Absconded`, `NCNS` add 1
to their category and 1 to the total. -/
theorem claim2_status_category_weights (s e : Date) (r : AttendanceRecord) (d : Date)
    (st : String) (a : SummaryRow) :
    (recordSummary s e { r with entries := r.entries ++ [(d, st)] }
      = if inRangeB s e d then applyStatus (recordSummary s e r) (strTrim st)
        else recordSummary s e r)
    ∧ (applyStatus a "Halfday").halfDay = a.halfDay + 1
    ∧ (applyStatus a "Halfday").totalWorkingDays = a.totalWorkingDays + 1/2
    ∧ (applyStatus a "Resigned").resigned = a.resigned + 1
    ∧ (applyStatus a "Resigned").totalWorkingDays = a.totalWorkingDays
    ∧ (applyStatus a "Resgined").resigned = a.resigned + 1
    ∧ (applyStatus a "Resgined").totalWorkingDays = a.totalWorkingDays
    ∧ (applyStatus a "OFF").offDays = a.offDays + 1
    ∧ (applyStatus a "OFF").totalWorkingDays = a.totalWorkingDays
    ∧ (applyStatus a "W").present = a.present + 1
    ∧ (applyStatus a "W").totalWorkingDays = a.totalWorkingDays + 1
    ∧ (applyStatus a "PL").plannedLeave = a.plannedLeave + 1
    ∧ (applyStatus a "PL").totalWorkingDays = a.totalWorkingDays + 1
    ∧ (applyStatus a "UPL").unplannedLeave = a.unplannedLeave + 1
    ∧ (applyStatus a "UPL").totalWorkingDays = a.totalWorkingDays + 1
    ∧ (applyStatus a "SL").sickLeave = a.sickLeave + 1
    ∧ (applyStatus a "SL").totalWorkingDays = a.totalWorkingDays + 1
    ∧ (applyStatus a "CL").casualLeave = a.casualLeave + 1
    ∧ (applyStatus a "CL").totalWorkingDays = a.totalWorkingDays + 1
    ∧ (applyStatus a "Compoff").compOff = a.compOff + 1
    ∧ (applyStatus a "Compoff").totalWorkingDays = a.totalWorkingDays + 1
    ∧ (applyStatus a "Absconded").absent = a.absent + 1
    ∧ (applyStatus a "Absconded").totalWorkingDays = a.totalWorkingDays + 1
    ∧ (applyStatus a "NCNS").absent = a.absent + 1
    ∧ (applyStatus a "NCNS").totalWorkingDays = a.totalWorkingDays + 1 := by
  refine ⟨?_, ?_, ?_, ?_, ?_, ?_, ?_, ?_, ?_, ?_, ?_, ?_, ?_, ?_, ?_, ?_, ?_, ?_, ?_,
    ?_, ?_, ?_, ?_, ?_, ?_⟩
  · simp [recordSummary, initSummary, List.foldl_append]
  all_goals rfl

/-- Claim C3: the header row is the first row among the first
`min 5 (row count)` rows whose date-like cell count reaches the threshold 3
(so every earlier row, in particular one with only 2 date-like cells, is below
the threshold), and when no row of the lookahead window qualifies the parser
returns the empty record list. -/
theorem claim3_header_row_first_at_threshold (g : Grid) (n : String) :
    (∀ i, findHeaderRow g = some i →
        i < min 5 g.length ∧ 3 ≤ dateCountRow (rowAt g i)
          ∧ ∀ j, j < i → dateCountRow (rowAt g j) < 3)
    ∧ (findHeaderRow g = none → process_attendance_sheet g n = PyResult.ok []) := by
  constructor
  · intro i h
    unfold findHeaderRow at h
    rw [List.range_eq_range'] at h
    obtain ⟨hp, _, hlt, hall⟩ := find?_range'_spec _ _ _ _ h
    refine ⟨by omega, by simpa using hp, ?_⟩
    intro j hj
    have := hall j (Nat.zero_le j) hj
    simp only [decide_eq_false_iff_not] at this
    omega
  · intro h
    unfold process_attendance_sheet
    rw [h]

/-- Claim C3 witness: on `c3Grid`, row 0 has exactly 2 date-like cells
(threshold minus one) and is not selected; row 1 has exactly 3 and is the
header row. -/
theorem claim3_header_row_first_at_threshold_witness :
    findHeaderRow c3Grid = some 1
    ∧ (1 < min 5 c3Grid.length ∧ 3 ≤ dateCountRow (rowAt c3Grid 1)
        ∧ ∀ j, j < 1 → dateCountRow (rowAt c3Grid j) < 3) :=
  ⟨by decide, (claim3_header_row_first_at_threshold c3Grid "September").1 1 (by decide)⟩

/-- Claim C4: the combiner groups by (process, employee id, employee name),
sums every numeric field, and lists the distinct sheet names sorted
alphabetically (all by definition of `calculate_combined_summary` /
`combinedRowFor`); permuting the input rows leaves the output unchanged — not
just the same set of rows but the very same list, since group keys are emitted
in sorted order. -/
theorem claim4_combine_perm_invariant (l1 l2 : List SummaryRow) (h : l1.Perm l2) :
    calculate_combined_summary l1 = calculate_combined_summary l2 := by
  unfold calculate_combined_summary
  rw [insertionSort_eq_of_perm ((h.map summaryKey).dedup)]
  have hrow : combinedRowFor l1 = combinedRowFor l2 :=
    funext (combinedRowFor_eq_of_perm h)
  rw [hrow]

/-- Claim C4 witness: swapping the two month rows of one employee leaves the
combined summary unchanged. -/
theorem claim4_combine_perm_invariant_witness :
    ([rowA, rowB].Perm [rowB, rowA])
    ∧ calculate_combined_summary [rowA, rowB] = calculate_combined_summary [rowB, rowA] :=
  ⟨List.Perm.swap rowB rowA [],
   claim4_combine_perm_invariant [rowA, rowB] [rowB, rowA] (List.Perm.swap rowB rowA [])⟩

/-- Claim C5: the aggregator produces exactly one summary row per input
record, each computed by the per-record function `recordSummary` alone, so
summarizing any sublist of the records yields exactly the corresponding
sublist of the full output. -/
theorem claim5_summarize_per_record (l sub : List AttendanceRecord) (s e : Date)
    (h : sub.Sublist l) :
    calculate_attendance_summary l s e = l.map (recordSummary s e)
    ∧ (calculate_attendance_summary sub s e).Sublist
        (calculate_attendance_summary l s e) := by
  refine ⟨summary_eq_map l s e, ?_⟩
  rw [summary_eq_map, summary_eq_map]
  exact h.map (recordSummary s e)

/-- Claim C5 witness: summarizing the sublist `[recB]` of `[recA, recB]`
yields the corresponding sublist of the full output. -/
theorem claim5_summarize_per_record_witness :
    ([recB].Sublist [recA, recB])
    ∧ (calculate_attendance_summary [recA, recB] ⟨2025, 9, 1⟩ ⟨2025, 9, 30⟩
        = [recA, recB].map (recordSummary ⟨2025, 9, 1⟩ ⟨2025, 9, 30⟩)
      ∧ (calculate_attendance_summary [recB] ⟨2025, 9, 1⟩ ⟨2025, 9, 30⟩).Sublist
          (calculate_attendance_summary [recA, recB] ⟨2025, 9, 1⟩ ⟨2025, 9, 30⟩)) :=
  ⟨(List.Sublist.refl [recB]).cons recA,
   claim5_summarize_per_record [recA, recB] [recB] ⟨2025, 9, 1⟩ ⟨2025, 9, 30⟩
     ((List.Sublist.refl [recB]).cons recA)⟩

/-- Claim C6: an entry contributes to the summary exactly when its date lies
in `[startDate, endDate]`: dropping every out-of-range entry leaves the
summary unchanged (so out-of-range entries contribute nothing and raise no
error), and the range test is the inclusive conjunction
`startDate <= d` and `d <= endDate`. -/
theorem claim6_inclusive_range_filter (s e : Date) (r : AttendanceRecord) :
    recordSummary s e r
      = recordSummary s e { r with entries := r.entries.filter (fun p => inRangeB s e p.1) }
    ∧ ∀ d : Date, inRangeB s e d = (dateLE s d && dateLE d e) := by
  constructor
  · unfold recordSummary
    have aux : ∀ (l : List (Date × String)) (a : SummaryRow),
        l.foldl (fun a p => if inRangeB s e p.1 then applyStatus a (strTrim p.2) else a) a
          = (l.filter (fun p => inRangeB s e p.1)).foldl
              (fun a p => if inRangeB s e p.1 then applyStatus a (strTrim p.2) else a) a := by
      intro l
      induction l with
      | nil => intro a; rfl
      | cons p t ih =>
        intro a
        by_cases h : inRangeB s e p.1 = true
        · simp [List.filter_cons, h, ih]
        · simp [List.filter_cons, h, ih]
    exact aux r.entries (initSummary r)
  · intro d; rfl

/-- Claim C7: an in-range entry whose (stripped) status code is none of the
recognized codes falls through the whole classification chain, so the summary
of a record containing such an entry equals the summary with the entry
omitted: it contributes 0 to every category and to Total Working Days, and
raises no error. -/
theorem claim7_unrecognized_status_ignored (s e : Date) (r : AttendanceRecord)
    (d : Date) (st : String) (l1 l2 : List (Date × String))
    (hst : strTrim st ∉ recognizedCodes)
    (hsplit : r.entries = l1 ++ (d, st) :: l2) :
    recordSummary s e r = recordSummary s e { r with entries := l1 ++ l2 } := by
  unfold recordSummary
  rw [hsplit, List.foldl_append, List.foldl_cons, List.foldl_append]
  have hskip : ∀ a : SummaryRow,
      (if inRangeB s e d then applyStatus a (strTrim st) else a) = a := by
    intro a
    by_cases h : inRangeB s e d = true
    · simp [h, applyStatus_unrecognized (strTrim st) hst]
    · simp [h]
  rw [hskip]
  rfl

/-- Claim C7 witness: an unknown in-range code `XYZ` in a record changes
nothing — the summary equals that of the record without the entry. -/
theorem claim7_unrecognized_status_ignored_witness :
    (strTrim "XYZ" ∉ recognizedCodes
      ∧ ({ recA with entries := [(⟨2025, 9, 1⟩, "W"), (⟨2025, 9, 3⟩, "XYZ")] } :
          AttendanceRecord).entries
        = [(⟨2025, 9, 1⟩, "W")] ++ (⟨2025, 9, 3⟩, "XYZ") :: [])
    ∧ recordSummary ⟨2025, 9, 1⟩ ⟨2025, 9, 30⟩
        { recA with entries := [(⟨2025, 9, 1⟩, "W"), (⟨2025, 9, 3⟩, "XYZ")] }
      = recordSummary ⟨2025, 9, 1⟩ ⟨2025, 9, 30⟩
          { recA with entries := [(⟨2025, 9, 1⟩, "W")] ++ [] } :=
  ⟨⟨by decide, by decide⟩,
   claim7_unrecognized_status_ignored ⟨2025, 9, 1⟩ ⟨2025, 9, 30⟩
     { recA with entries := [(⟨2025, 9, 1⟩, "W"), (⟨2025, 9, 3⟩, "XYZ")] }
     ⟨2025, 9, 3⟩ "XYZ" [(⟨2025, 9, 1⟩, "W")] [] (by decide) (by decide)⟩

/-- Claim C8: the claim states the parser never raises.  It can: on
`natCrashGrid` the header row is found and the header text `nan` of column 6
passes the line-61 guards, `pd.to_datetime` returns `NaT` for it without
raising, so the column is kept; the employee row has a usable status in that
column, and `NaT.strftime` at app.py line 143 raises an uncaught `ValueError`
that escapes `process_attendance_sheet`.  The theorem evaluates the parser at
this input to the raised error. -/
theorem claim8_parser_raises_on_nat_column :
    process_attendance_sheet natCrashGrid "September"
      = PyResult.raised "NaTType does not support strftime" := by decide

lemma buildEntries_ok_lookup (cell : Nat → Cell) (d : Date) :
    ∀ (cols : List (Nat × HeaderDate)) (acc es : List (Date × String)),
      buildEntries cell cols acc = PyResult.ok es →
      lookupDate es d
        = match cols.reverse.find?
              (fun cd => decide (cd.2 = HeaderDate.real d) && statusOk (cell cd.1)) with
          | some cd => some (strTrim (cellToStr (cell cd.1)))
          | none => lookupDate acc d := by
  intro cols
  induction cols with
  | nil =>
    intro acc es h
    injection h with h
    subst h
    rfl
  | cons cd rest ih =>
    intro acc es h
    rw [List.reverse_cons]
    by_cases hs : statusOk (cell cd.1) = true
    · match hcd : cd.2 with
      | HeaderDate.nat =>
        rw [buildEntries, if_pos hs, hcd] at h
        cases h
      | HeaderDate.real d0 =>
        rw [buildEntries, if_pos hs, hcd] at h
        have := ih _ _ h
        rw [this]
        match hfind : rest.reverse.find?
            (fun cd => decide (cd.2 = HeaderDate.real d) && statusOk (cell cd.1)) with
        | some cd0 =>
          rw [List.find?_append, hfind]
          rfl
        | none =>
          rw [List.find?_append, hfind]
          by_cases hd : d0 = d
          · subst hd
            rw [lookupDate_dictInsert_self]
            simp [List.find?, hcd, hs]
          · rw [lookupDate_dictInsert_ne _ _ _ _ hd]
            have : ¬cd.2 = HeaderDate.real d := by
              rw [hcd]
              intro hc
              injection hc with hc
              exact hd hc
            simp [List.find?, this]
    · rw [buildEntries, if_neg hs] at h
      have := ih _ _ h
      rw [this]
      match hfind : rest.reverse.find?
          (fun cd => decide (cd.2 = HeaderDate.real d) && statusOk (cell cd.1)) with
      | some cd0 =>
        rw [List.find?_append, hfind]
        rfl
      | none =>
        rw [List.find?_append, hfind]
        rw [Bool.not_eq_true] at hs
        simp [List.find?, hs]

/-- Claim C9: whenever the entry map of one employee row is built successfully,
the status stored under a date is the one of the rightmost (last,
highest-index) kept column resolving to that date whose cell is usable
(non-empty, not `nan`); earlier columns with the same date are overwritten,
and when no such column exists the date is absent. -/
theorem claim9_duplicate_date_last_column_wins (cell : Nat → Cell)
    (cols : List (Nat × HeaderDate)) (d : Date) (es : List (Date × String))
    (h : buildEntries cell cols [] = PyResult.ok es) :
    lookupDate es d
      = (cols.reverse.find?
            (fun cd => decide (cd.2 = HeaderDate.real d) && statusOk (cell cd.1))).map
          (fun cd => strTrim (cellToStr (cell cd.1))) := by
  have hl := buildEntries_ok_lookup cell d cols [] es h
  rw [hl]
  cases hfind : cols.reverse.find?
      (fun cd => decide (cd.2 = HeaderDate.real d) && statusOk (cell cd.1)) with
  | none => rfl
  | some cd0 => rfl

/-- Claim C9 witness: columns 3 and 4 both resolve to 2025-09-01 with usable
statuses `A` and `B`; the built entry map stores the rightmost one, `B`. -/
theorem claim9_duplicate_date_last_column_wins_witness :
    buildEntries
        (fun c => [Cell.text "P", Cell.text "I", Cell.text "N",
          Cell.text "A", Cell.text "B"].getD c Cell.empty)
        [(3, HeaderDate.real ⟨2025, 9, 1⟩), (4, HeaderDate.real ⟨2025, 9, 1⟩)] []
      = PyResult.ok [(⟨2025, 9, 1⟩, "B")]
    ∧ lookupDate [(⟨2025, 9, 1⟩, "B")] ⟨2025, 9, 1⟩
      = (([(3, HeaderDate.real ⟨2025, 9, 1⟩),
           (4, HeaderDate.real ⟨2025, 9, 1⟩)].reverse.find?
            (fun cd => decide (cd.2 = HeaderDate.real ⟨2025, 9, 1⟩)
              && statusOk ([Cell.text "P", Cell.text "I", Cell.text "N",
                Cell.text "A", Cell.text "B"].getD cd.1 Cell.empty))).map
          (fun cd => strTrim (cellToStr ([Cell.text "P", Cell.text "I", Cell.text "N",
            Cell.text "A", Cell.text "B"].getD cd.1 Cell.empty)))) :=
  ⟨by decide,
   claim9_duplicate_date_last_column_wins
     (fun c => [Cell.text "P", Cell.text "I", Cell.text "N",
       Cell.text "A", Cell.text "B"].getD c Cell.empty)
     [(3, HeaderDate.real ⟨2025, 9, 1⟩), (4, HeaderDate.real ⟨2025, 9, 1⟩)]
     ⟨2025, 9, 1⟩ [(⟨2025, 9, 1⟩, "B")] (by decide)⟩

/-- Claim C10: when `startDate` is strictly after `endDate` the aggregator
still returns, without error, one row per record, with the identity fields
copied and every category count and Total Working Days equal to 0 (no date
passes the inclusive range test). -/
theorem claim10_reversed_range_zero_rows (s e : Date) (l : List AttendanceRecord)
    (h : dateLE s e = false) :
    calculate_attendance_summary l s e
      = l.map (fun r =>
          { process := r.process, empId := r.empId, empName := r.empName
            sheet := r.sheet, present := 0, plannedLeave := 0, unplannedLeave := 0
            sickLeave := 0, casualLeave := 0, compOff := 0, halfDay := 0
            absent := 0, offDays := 0, resigned := 0, totalWorkingDays := 0 }) := by
  rw [summary_eq_map]
  have hfun : recordSummary s e = fun r => initSummary r := by
    funext r
    exact recordSummary_of_empty_range s e r h
  rw [hfun]
  rfl

/-- Claim C10 witness: with start 2025-09-05 after end 2025-09-01, the record
`recA` yields a row of zeros with its identity fields. -/
theorem claim10_reversed_range_zero_rows_witness :
    dateLE ⟨2025, 9, 5⟩ ⟨2025, 9, 1⟩ = false
    ∧ calculate_attendance_summary [recA] ⟨2025, 9, 5⟩ ⟨2025, 9, 1⟩
      = [recA].map (fun r =>
          { process := r.process, empId := r.empId, empName := r.empName
            sheet := r.sheet, present := 0, plannedLeave := 0, unplannedLeave := 0
            sickLeave := 0, casualLeave := 0, compOff := 0, halfDay := 0
            absent := 0, offDays := 0, resigned := 0, totalWorkingDays := 0 }) :=
  ⟨by decide,
   claim10_reversed_range_zero_rows ⟨2025, 9, 5⟩ ⟨2025, 9, 1⟩ [recA] (by decide)⟩

example :
    process_attendance_sheet
      [[Cell.text "", Cell.text "", Cell.text "Name", Cell.text "2025-09-01",
        Cell.text "2025-09-02", Cell.text "2025-09-03"],
       [Cell.text "Ops", Cell.text "E1", Cell.text "Alice", Cell.text "W",
        Cell.text "PL", Cell.text ""]] "September"
      = PyResult.ok
          [{ process := "Ops", empId := "E1", empName := "Alice", sheet := "September",
             entries := [(⟨2025, 9, 1⟩, "W"), (⟨2025, 9, 2⟩, "PL")] }] := by decide

example : process_attendance_sheet c8Grid "September" = PyResult.ok [] := by decide

example :
    (recordSummary ⟨2025, 9, 1⟩ ⟨2025, 9, 30⟩ recA).present = 1
    ∧ (recordSummary ⟨2025, 9, 1⟩ ⟨2025, 9, 30⟩ recA).halfDay = 1 := by decide

example :
    (calculate_combined_summary [rowA, { rowB with sheet := "September" }]).map
        (fun r => (r.process, r.empId, r.empName, r.present, r.contributingSheets))
      = [("Ops", "E1", "Alice", 3, "September")] := by decide
